import Mathlib

/-!
Verification development for the picoclaw repository core:
the session store, the web fetch/search tools and the device-event
formatter.  The session store and the web tools are not shipped in the
source tree (only their tests are), so those definitions are modelled
from the specification; `DeviceEvent.FormatMessage` is translated
directly from `pkg/devices/events/events.go`.
-/

/- ===================== Session store ===================== -/

/-- A chat message, as stored in a session history
(spec section 3: Message is record of role, content, timestamp). -/
structure Message where
  role : String
  content : String
  timestamp : Nat
deriving DecidableEq, Repr

/-- Possible persistence failures (spec section 7 taxonomy). -/
inductive SaveError
  | invalidKey
  | storageIO
deriving DecidableEq, Repr

/-- In-memory state of a session manager: association of keys to
histories.  Modelled from the spec: the Go implementation of
package session is absent from the source tree, only its tests exist. -/
structure SessionManager where
  sessions : List (String × List Message)
deriving DecidableEq, Repr

/-- The durable storage seen by a store rooted at a fixed directory:
an association of file names to message snapshots.  Modelled from the
spec: one structured document per session at root slash sanitized-key
plus extension. -/
abbrev FileSystem := List (String × List Message)

/-- Modelled from the spec: a fresh session manager over a root holds
no in-memory sessions. -/
def NewSessionManager : SessionManager := ⟨[]⟩

/-- Modelled from the spec: sanitize a key into a filesystem-safe
name, replacing each non-path-safe separator character, namely the
colon, with an underscore.  The test file gives the exact pairs:
telegram:123456 becomes telegram_123456, keys without colons are kept. -/
def sanitizeFilename (key : String) : String :=
  ⟨key.data.map (fun c => if c = ':' then '_' else c)⟩

/-- Whether a string contains a path-separator character. -/
def hasPathSep (s : String) : Bool :=
  s.data.any (fun c => c = '/' || c = '\\')

/-- Modelled from the spec: a key is rejected at persistence time when
the original or the sanitized key is empty, a dot, a double dot, or
contains a path separator. -/
def keyRejected (key : String) : Bool :=
  let s := sanitizeFilename key
  key == "" || key == "." || key == ".." || hasPathSep key ||
    s == "" || s == "." || s == ".." || hasPathSep s

/-- Modelled from the spec: GetOrCreate returns the in-memory session
for the key, creating an empty one if absent; it never touches storage
and never validates the key. -/
def SessionManager.GetOrCreate (sm : SessionManager) (key : String) :
    SessionManager :=
  if (sm.sessions.lookup key).isSome then sm
  else ⟨sm.sessions ++ [(key, [])]⟩

/-- Modelled from the spec: AddMessage appends to the in-memory
history of the key; no storage access. -/
def SessionManager.AddMessage (sm : SessionManager)
    (key role content : String) (ts : Nat) : SessionManager :=
  ⟨sm.sessions.map
    (fun p => if p.1 == key then (p.1, p.2 ++ [⟨role, content, ts⟩]) else p)⟩

/-- Modelled from the spec: Save sanitizes the key; a rejected key
fails with InvalidKey and performs no write; otherwise the full
ordered history is written as a snapshot under the sanitized name plus
the json extension.  The returned pair is the reported error, if any,
together with the storage state after the call. -/
def SessionManager.Save (sm : SessionManager) (key : String)
    (fs : FileSystem) : Option SaveError × FileSystem :=
  if keyRejected key then (some SaveError.invalidKey, fs)
  else
    let fname := sanitizeFilename key ++ ".json"
    let hist := (sm.sessions.lookup key).getD []
    (none, (fname, hist) :: fs)

/-- Modelled from the spec: GetHistory returns the in-memory history
if loaded, otherwise loads the snapshot from storage, returning an
empty sequence when no snapshot exists. -/
def SessionManager.GetHistory (sm : SessionManager) (key : String)
    (fs : FileSystem) : List Message :=
  match sm.sessions.lookup key with
  | some h => h
  | none => (fs.lookup (sanitizeFilename key ++ ".json")).getD []

/-- Append a whole history through repeated AddMessage calls. -/
def addMessages (sm : SessionManager) (key : String)
    (msgs : List Message) : SessionManager :=
  msgs.foldl (fun acc m => acc.AddMessage key m.role m.content m.timestamp) sm

/- ===================== Web tools ===================== -/

/-- Dual-audience result of a tool execution (spec section 3):
a human-facing rendering, a compact model-facing summary, and an
error flag. -/
structure ToolResult where
  forUser : String
  forLLM : String
  isError : Bool
deriving DecidableEq, Repr

/-- The structured user-facing payload of a fetch: the rendered text
and the truncation flag. -/
structure FetchPayload where
  text : String
  truncated : Bool
deriving DecidableEq, Repr

/-- Modelled from the spec: the fetch tool implementation is absent
from the source tree; if the extracted text exceeds the configured
limit it is cut to exactly the limit and the truncation flag is set,
otherwise the text is kept whole and the flag is false. -/
def truncateContent (content : String) (limit : Nat) : FetchPayload :=
  if limit < content.length then ⟨⟨content.data.take limit⟩, true⟩
  else ⟨content, false⟩

/-- Modelled from the spec: on a successful fetch the user-facing
side carries the (possibly truncated) rendered text, while the
model-facing summary is only a short descriptor built from the byte
count and the extraction method, never the body. -/
def webFetchSuccess (extracted method : String) (limit : Nat) : ToolResult :=
  ⟨(truncateContent extracted limit).text,
   "Fetched " ++ toString extracted.length ++ " bytes (extractor: " ++
     method ++ ")",
   false⟩

/-- Scheme and host of a parsed URL. -/
structure URLParts where
  scheme : String
  host : String
deriving DecidableEq, Repr

/-- Split a character list at the first occurrence of the
scheme separator colon-slash-slash. -/
def findSchemeSplit (acc : List Char) : List Char → Option (List Char × List Char)
  | ':' :: '/' :: '/' :: rest => some (acc.reverse, rest)
  | c :: rest => findSchemeSplit (c :: acc) rest
  | [] => none

/-- Modelled from the spec: the fetch tool implementation is absent
from the source tree; a URL argument is parseable when it has a
non-empty scheme before the separator, and its host is what follows
up to the first slash. -/
def parseURL (s : String) : Option URLParts :=
  match findSchemeSplit [] s.data with
  | none => none
  | some (sch, rest) =>
      if sch.isEmpty then none
      else some ⟨⟨sch⟩, ⟨rest.takeWhile (fun c => c ≠ '/')⟩⟩

/-- Modelled from the spec: the fetch tool validates its URL argument
before any network access; an unparseable URL, a scheme other than
http or https, or an empty host each yield an error result naming the
failing aspect; only a valid URL proceeds to the actual fetch, which
is represented by the ok constructor carrying the parsed parts. -/
def webFetchExecute (urlArg : String) : Except ToolResult URLParts :=
  match parseURL urlArg with
  | none => Except.error ⟨"Error: invalid URL", "Error: invalid URL", true⟩
  | some u =>
      if u.scheme != "http" && u.scheme != "https" then
        Except.error ⟨"Error: only http/https URLs are supported",
          "Error: only http/https URLs are supported", true⟩
      else if u.host == "" then
        Except.error ⟨"Error: URL is missing domain",
          "Error: URL is missing domain", true⟩
      else Except.ok u

/-- Configuration of the web search tool, one block per provider
(API key, maximum results, enabled flag; DuckDuckGo needs no key). -/
structure WebSearchToolOptions where
  braveAPIKey : String
  braveMaxResults : Nat
  braveEnabled : Bool
  exaAPIKey : String
  exaMaxResults : Nat
  exaEnabled : Bool
  duckDuckGoEnabled : Bool
  duckDuckGoMaxResults : Nat
deriving DecidableEq, Repr

/-- The pluggable search backends. -/
inductive SearchProviderKind
  | brave
  | exa
  | duckduckgo
deriving DecidableEq, Repr

/-- The constructed search tool: the selected provider and its
adopted maximum-results setting. -/
structure WebSearchTool where
  provider : SearchProviderKind
  maxResults : Nat
deriving DecidableEq, Repr

/-- Whether a given provider is enabled by the options: keyed
providers need both the flag and a non-empty key. -/
def providerOn (o : WebSearchToolOptions) : SearchProviderKind → Bool
  | SearchProviderKind.brave => o.braveEnabled && o.braveAPIKey != ""
  | SearchProviderKind.exa => o.exaEnabled && o.exaAPIKey != ""
  | SearchProviderKind.duckduckgo => o.duckDuckGoEnabled

/-- The configured maximum-results value of each provider. -/
def providerMaxResults (o : WebSearchToolOptions) :
    SearchProviderKind → Nat
  | SearchProviderKind.brave => o.braveMaxResults
  | SearchProviderKind.exa => o.exaMaxResults
  | SearchProviderKind.duckduckgo => o.duckDuckGoMaxResults

/-- Precedence rank of a provider; lower is chosen first. -/
def precedenceRank : SearchProviderKind → Nat
  | SearchProviderKind.brave => 0
  | SearchProviderKind.exa => 1
  | SearchProviderKind.duckduckgo => 2

/-- Modelled from the spec: the search tool constructor is absent
from the source tree; with no provider enabled it yields no tool at
all, otherwise a fixed precedence order (Brave, then Exa, then
DuckDuckGo) selects exactly one provider and adopts its configured
maximum-results setting. -/
def NewWebSearchTool (o : WebSearchToolOptions) : Option WebSearchTool :=
  if providerOn o SearchProviderKind.brave then
    some ⟨SearchProviderKind.brave, o.braveMaxResults⟩
  else if providerOn o SearchProviderKind.exa then
    some ⟨SearchProviderKind.exa, o.exaMaxResults⟩
  else if providerOn o SearchProviderKind.duckduckgo then
    some ⟨SearchProviderKind.duckduckgo, o.duckDuckGoMaxResults⟩
  else none

/-- One search hit as returned by a provider backend. -/
structure SearchResultItem where
  title : String
  url : String
  text : String
deriving DecidableEq, Repr

/-- The upstream HTTP response a provider receives: status code,
error message of a failure body, and the result list of a success
body. -/
structure UpstreamResponse where
  status : Nat
  errorMessage : String
  results : List SearchResultItem
deriving DecidableEq, Repr

/-- Render a result list under the standard heading, one
title/URL/snippet block per result, in provider order. -/
def formatSearchResults (providerName query : String)
    (results : List SearchResultItem) : String :=
  "Results for: " ++ query ++ " (via " ++ providerName ++ ")\n\n" ++
    String.join (results.map
      (fun r => r.title ++ "\n" ++ r.url ++ "\n" ++ r.text ++ "\n\n"))

/-- Modelled from the spec: the Exa provider implementation is absent
from the source tree; its search issues the upstream request and, on
a non-2xx response, fails with an error embedding the upstream status
code and the upstream error message, while a 2xx response is rendered
with the standard heading in provider order.  The upstream response is
passed explicitly, abstracting the network exchange. -/
def exaSearch (query : String) (numResults : Nat)
    (resp : UpstreamResponse) : Except String String :=
  if 200 ≤ resp.status && resp.status < 300 then
    Except.ok (formatSearchResults "Exa" query resp.results)
  else
    Except.error ("Exa search failed: status " ++ toString resp.status ++
      ": " ++ resp.errorMessage)

/- ===================== Device events ===================== -/

/-- A normalized hardware hotplug event, translated from
pkg/devices/events/events.go (Action and Kind are string types in the
source; the raw property map is kept as an association list). -/
structure DeviceEvent where
  action : String
  kind : String
  deviceID : String
  vendor : String
  product : String
  serial : String
  capabilities : String
  raw : List (String × String)
deriving DecidableEq, Repr

def ActionAdd : String := "add"
def ActionRemove : String := "remove"
def ActionChange : String := "change"

/-- Translated from DeviceEvent.FormatMessage in
pkg/devices/events/events.go: the action emoji is the same in both
branches of the source conditional; the action text is Disconnected
exactly for the remove action; capability and serial lines are
appended only when the fields are non-empty. -/
def DeviceEvent.FormatMessage (e : DeviceEvent) : String :=
  let actionEmoji := "🔌"
  let actionText := if e.action == ActionRemove then "Disconnected" else "Connected"
  let msg := actionEmoji ++ " Device " ++ actionText ++ "\n\n"
  let msg := msg ++ "Type: " ++ e.kind ++ "\n"
  let msg := msg ++ "Device: " ++ e.vendor ++ " " ++ e.product ++ "\n"
  let msg := if e.capabilities != "" then msg ++ "Capabilities: " ++ e.capabilities ++ "\n" else msg
  let msg := if e.serial != "" then msg ++ "Serial: " ++ e.serial ++ "\n" else msg
  msg

/-- Replace the action of an event, keeping every other field. -/
def DeviceEvent.setAction (e : DeviceEvent) (a : String) : DeviceEvent :=
  ⟨a, e.kind, e.deviceID, e.vendor, e.product, e.serial, e.capabilities, e.raw⟩

/- ===================== helper lemmas ===================== -/

theorem string_data_ext (a b : String) (h : a.data = b.data) : a = b := by
  cases a
  cases b
  exact congrArg String.mk h

theorem string_data_append (a b : String) :
    (a ++ b).data = a.data ++ b.data := rfl

theorem getOrCreate_empty (key : String) :
    NewSessionManager.GetOrCreate key = ⟨[(key, [])]⟩ := by
  simp [NewSessionManager, SessionManager.GetOrCreate, List.lookup]

theorem addMessages_single (key : String) (h : List Message)
    (msgs : List Message) :
    addMessages ⟨[(key, h)]⟩ key msgs = ⟨[(key, h ++ msgs)]⟩ := by
  induction msgs generalizing h with
  | nil => simp [addMessages]
  | cons m ms ih =>
      have hstep :
          addMessages ⟨[(key, h)]⟩ key (m :: ms) =
            addMessages ⟨[(key, h ++ [m])]⟩ key ms := by
        simp [addMessages, SessionManager.AddMessage]
      rw [hstep, ih]
      simp

theorem ite_beq_string {α : Type} (a b : String) (x y : α) :
    (if a == b then x else y) = (if a = b then x else y) := by
  by_cases h : a = b <;> simp [h]

theorem ite_bne_string {α : Type} (a b : String) (x y : α) :
    (if a != b then x else y) = (if a = b then y else x) := by
  by_cases h : a = b <;> simp [h]

theorem formatMessage_unfold (e : DeviceEvent) :
    e.FormatMessage =
      "🔌 Device " ++
        (if e.action == ActionRemove then "Disconnected" else "Connected") ++
        "\n\n" ++ "Type: " ++ e.kind ++ "\n" ++ "Device: " ++ e.vendor ++
        " " ++ e.product ++ "\n" ++
        (if e.capabilities != "" then
          "Capabilities: " ++ e.capabilities ++ "\n" else "") ++
        (if e.serial != "" then "Serial: " ++ e.serial ++ "\n" else "") := by
  unfold DeviceEvent.FormatMessage
  cases hc : (e.capabilities != "") <;> cases hs : (e.serial != "") <;>
    (apply string_data_ext;
     simp [hc, hs, string_data_append, List.append_assoc])

/- ===================== claim theorems ===================== -/

/-- C1: every session key that is empty, a dot, a double dot, or
contains a path-separator character before or after the colon
substitution is rejected by Save with the InvalidKey error, and the
storage state is left unchanged: no file is written and no silent
rewrite to a safe name happens. -/
theorem save_rejects_unsafe_keys (sm : SessionManager) (key : String)
    (fs : FileSystem)
    (h : key = "" ∨ key = "." ∨ key = ".." ∨ hasPathSep key = true ∨
      hasPathSep (sanitizeFilename key) = true) :
    (sm.Save key fs).1 = some SaveError.invalidKey ∧
      (sm.Save key fs).2 = fs := by
  have hrej : keyRejected key = true := by
    unfold keyRejected
    rcases h with h | h | h | h | h <;> simp [h]
  constructor <;> simp [SessionManager.Save, hrej]

/-- C1 witness: the concrete keys from the path-traversal test are all
rejected with no write. -/
theorem save_rejects_unsafe_keys_witness :
    ((NewSessionManager.GetOrCreate "..").Save ".." []).1 =
        some SaveError.invalidKey ∧
      ((NewSessionManager.GetOrCreate "..").Save ".." []).2 = [] :=
  save_rejects_unsafe_keys (NewSessionManager.GetOrCreate "..") ".." []
    (Or.inr (Or.inr (Or.inl rfl)))

/-- C7: sanitizeFilename keeps the length of the key, maps each
character to an underscore exactly when it is a colon and to itself
otherwise, and is the identity on keys containing no colon. -/
theorem sanitizeFilename_pointwise (key : String) :
    (sanitizeFilename key).data.length = key.data.length ∧
      (∀ i : Nat, (sanitizeFilename key).data.getD i ' ' =
        (if key.data.getD i ' ' = ':' then '_' else key.data.getD i ' ')) ∧
      ((':' ∉ key.data) → sanitizeFilename key = key) := by
  refine ⟨by simp [sanitizeFilename], ?_, ?_⟩
  · intro i
    simp only [sanitizeFilename, List.getD_eq_getElem?_getD, List.getElem?_map]
    cases hx : key.data[i]? with
    | none => simp
    | some c => simp
  · intro hno
    apply string_data_ext
    show key.data.map _ = key.data
    rw [List.map_congr_left, List.map_id]
    intro a ha
    have : a ≠ ':' := fun hc => hno (hc ▸ ha)
    simp [this]

/-- C7 witness: a colon-free key is unchanged, and the per-index law
holds at index 8 of the telegram key, mapping the colon to an
underscore. -/
theorem sanitizeFilename_pointwise_witness :
    sanitizeFilename "no-colons-here" = "no-colons-here" ∧
      (sanitizeFilename "telegram:123456").data.getD 8 ' ' =
        (if ("telegram:123456").data.getD 8 ' ' = ':' then '_'
         else ("telegram:123456").data.getD 8 ' ') :=
  ⟨(sanitizeFilename_pointwise "no-colons-here").2.2 (by decide),
   (sanitizeFilename_pointwise "telegram:123456").2.1 8⟩

/-- C3: for a key containing a colon, building a session by
GetOrCreate followed by AddMessage for each message and then a
successful Save stores the snapshot under the key with colons replaced
by underscores plus the json extension, and a fresh manager over the
same storage reads back the identical message sequence. -/
theorem save_roundtrip (key : String) (msgs : List Message)
    (fs : FileSystem) (hcolon : ':' ∈ key.data)
    (hok : ((addMessages (NewSessionManager.GetOrCreate key) key msgs).Save
      key fs).1 = none) :
    ((addMessages (NewSessionManager.GetOrCreate key) key msgs).Save
        key fs).2.lookup (sanitizeFilename key ++ ".json") = some msgs ∧
      NewSessionManager.GetHistory key
        ((addMessages (NewSessionManager.GetOrCreate key) key msgs).Save
          key fs).2 = msgs := by
  rw [getOrCreate_empty, addMessages_single] at *
  by_cases hrej : keyRejected key = true
  · simp [SessionManager.Save, hrej] at hok
  · have hrej2 : keyRejected key = false := by
      revert hrej
      cases keyRejected key <;> simp
    constructor
    · simp [SessionManager.Save, hrej2, List.lookup]
    · simp [SessionManager.Save, hrej2, SessionManager.GetHistory,
        NewSessionManager, List.lookup]

/-- C3 witness: the end-to-end example of the spec: the key
telegram:123456 with one user message hello saves to the file
telegram_123456.json and a fresh manager loads exactly that message. -/
theorem save_roundtrip_witness :
    ((addMessages (NewSessionManager.GetOrCreate "telegram:123456")
        "telegram:123456" [⟨"user", "hello", 0⟩]).Save
        "telegram:123456" []).2.lookup
        (sanitizeFilename "telegram:123456" ++ ".json") =
      some [⟨"user", "hello", 0⟩] ∧
      NewSessionManager.GetHistory "telegram:123456"
        ((addMessages (NewSessionManager.GetOrCreate "telegram:123456")
          "telegram:123456" [⟨"user", "hello", 0⟩]).Save
          "telegram:123456" []).2 = [⟨"user", "hello", 0⟩] :=
  save_roundtrip "telegram:123456" [⟨"user", "hello", 0⟩] []
    (by decide) (by decide)

/-- C2: the fetch truncation law: the truncated flag is true exactly
when the extracted text exceeds the limit; under the limit the payload
text is the extracted text unchanged with the flag false; over the
limit the payload text has length exactly the limit with the flag
true. -/
theorem fetch_truncation_law (content : String) (limit : Nat) :
    ((truncateContent content limit).truncated = true ↔
      limit < content.length) ∧
      (content.length ≤ limit →
        (truncateContent content limit).text = content ∧
          (truncateContent content limit).truncated = false) ∧
      (limit < content.length →
        (truncateContent content limit).text.length = limit ∧
          (truncateContent content limit).truncated = true) := by
  refine ⟨?_, ?_, ?_⟩
  · unfold truncateContent
    split <;> simp_all
  · intro hle
    have : ¬ limit < content.length := by omega
    simp [truncateContent, this]
  · intro hlt
    refine ⟨?_, by simp [truncateContent, hlt]⟩
    simp only [truncateContent, hlt, if_pos]
    show (content.data.take limit).length = limit
    rw [List.length_take]
    have : limit ≤ content.data.length := le_of_lt hlt
    omega

/-- C2 witness: a five-character text against limit three is cut to
length three with the flag set, and a two-character text against
limit three is kept whole with the flag clear. -/
theorem fetch_truncation_law_witness :
    ((truncateContent "xxxxx" 3).text.length = 3 ∧
        (truncateContent "xxxxx" 3).truncated = true) ∧
      ((truncateContent "hi" 3).text = "hi" ∧
        (truncateContent "hi" 3).truncated = false) :=
  ⟨(fetch_truncation_law "xxxxx" 3).2.2 (by decide),
   (fetch_truncation_law "hi" 3).2.1 (by decide)⟩

/-- C4: with no search provider enabled the constructor yields no
tool at all; any constructed tool uses an enabled provider of maximal
precedence and adopts that provider's configured maximum-results
value; in particular the test configuration with Exa enabled at three
results and DuckDuckGo enabled at five yields the Exa provider with
three results. -/
theorem search_tool_selection (o : WebSearchToolOptions) :
    ((∀ p, providerOn o p = false) → NewWebSearchTool o = none) ∧
      (∀ t, NewWebSearchTool o = some t →
        providerOn o t.provider = true ∧
          t.maxResults = providerMaxResults o t.provider ∧
          (∀ p, providerOn o p = true →
            precedenceRank t.provider ≤ precedenceRank p)) ∧
      NewWebSearchTool ⟨"", 5, false, "exa-test-key", 3, true, true, 5⟩ =
        some ⟨SearchProviderKind.exa, 3⟩ := by
  refine ⟨?_, ?_, by decide⟩
  · intro hall
    have hb := hall SearchProviderKind.brave
    have he := hall SearchProviderKind.exa
    have hd := hall SearchProviderKind.duckduckgo
    simp [NewWebSearchTool, hb, he, hd]
  · intro t ht
    unfold NewWebSearchTool at ht
    by_cases hb : providerOn o SearchProviderKind.brave = true
    · rw [if_pos hb] at ht
      cases ht
      refine ⟨hb, rfl, ?_⟩
      intro p _
      cases p <;> simp [precedenceRank]
    · have hb2 : providerOn o SearchProviderKind.brave = false := by
        revert hb; cases providerOn o SearchProviderKind.brave <;> simp
      rw [hb2] at ht
      simp only [Bool.false_eq_true, if_false] at ht
      by_cases he : providerOn o SearchProviderKind.exa = true
      · rw [if_pos he] at ht
        cases ht
        refine ⟨he, rfl, ?_⟩
        intro p hp
        cases p
        · rw [hb2] at hp; cases hp
        · simp [precedenceRank]
        · simp [precedenceRank]
      · have he2 : providerOn o SearchProviderKind.exa = false := by
          revert he; cases providerOn o SearchProviderKind.exa <;> simp
        rw [he2] at ht
        simp only [Bool.false_eq_true, if_false] at ht
        by_cases hd : providerOn o SearchProviderKind.duckduckgo = true
        · rw [if_pos hd] at ht
          cases ht
          refine ⟨hd, rfl, ?_⟩
          intro p hp
          cases p
          · rw [hb2] at hp; cases hp
          · rw [he2] at hp; cases hp
          · simp [precedenceRank]
        · have hd2 : providerOn o SearchProviderKind.duckduckgo = false := by
            revert hd; cases providerOn o SearchProviderKind.duckduckgo <;> simp
          rw [hd2] at ht
          simp at ht

/-- C4 witness: with every provider disabled the constructor yields
none, and the constructed Exa tool of the test configuration is
enabled, adopts three results, and has maximal precedence among the
enabled providers. -/
theorem search_tool_selection_witness :
    NewWebSearchTool ⟨"", 5, false, "", 0, false, false, 0⟩ = none ∧
      (providerOn ⟨"", 5, false, "exa-test-key", 3, true, true, 5⟩
          SearchProviderKind.exa = true ∧
        (3 : Nat) = providerMaxResults
          ⟨"", 5, false, "exa-test-key", 3, true, true, 5⟩
          SearchProviderKind.exa ∧
        (∀ p, providerOn ⟨"", 5, false, "exa-test-key", 3, true, true, 5⟩
            p = true →
          precedenceRank SearchProviderKind.exa ≤ precedenceRank p)) :=
  ⟨(search_tool_selection ⟨"", 5, false, "", 0, false, false, 0⟩).1
      (fun p => by cases p <;> rfl),
   (search_tool_selection
      ⟨"", 5, false, "exa-test-key", 3, true, true, 5⟩).2.1
      ⟨SearchProviderKind.exa, 3⟩ (by decide)⟩

/-- C5: a non-2xx upstream response makes the provider search fail
with an error containing both the upstream status code and the
upstream error message; a 2xx response yields the heading naming the
query and the provider, followed by one title/URL/snippet block per
result in provider order with no re-ranking. -/
theorem provider_search_rendering (query : String) (n : Nat)
    (resp : UpstreamResponse) :
    (¬ (200 ≤ resp.status ∧ resp.status < 300) →
      ∃ e, exaSearch query n resp = Except.error e ∧
        ("status " ++ toString resp.status).data <:+: e.data ∧
        resp.errorMessage.data <:+: e.data) ∧
      ((200 ≤ resp.status ∧ resp.status < 300) →
        exaSearch query n resp =
          Except.ok ("Results for: " ++ query ++ " (via Exa)\n\n" ++
            String.join (resp.results.map
              (fun r => r.title ++ "\n" ++ r.url ++ "\n" ++
                r.text ++ "\n\n")))) := by
  constructor
  · intro hbad
    have hc : (200 ≤ resp.status && resp.status < 300) = false := by
      rcases Nat.lt_or_ge resp.status 200 with h | h
      · simp [Nat.not_le_of_lt h]
      · have : ¬ resp.status < 300 := fun hlt => hbad ⟨h, hlt⟩
        simp [this]
    refine ⟨"Exa search failed: status " ++ toString resp.status ++
      ": " ++ resp.errorMessage, by simp [exaSearch, hc], ?_, ?_⟩
    · refine ⟨("Exa search failed: ").data,
        ((": " ++ resp.errorMessage)).data, ?_⟩
      simp only [string_data_append, List.append_assoc]
      rfl
    · refine ⟨("Exa search failed: status " ++ toString resp.status ++
        ": ").data, [], ?_⟩
      simp only [string_data_append, List.append_assoc, List.append_nil]
  · intro hgood
    have hc : (200 ≤ resp.status && resp.status < 300) = true := by
      simp [hgood.1, hgood.2]
    have hrun : exaSearch query n resp =
        Except.ok (formatSearchResults "Exa" query resp.results) := by
      simp [exaSearch, hc]
    rw [hrun]
    refine congrArg Except.ok ?_
    apply string_data_ext
    simp only [formatSearchResults, string_data_append, List.append_assoc]
    rfl

/-- C5 witness: the 401 response of the HTTP-error test yields an
error containing the status and the upstream message, and the
one-result success response of the success test renders the standard
heading followed by the single block. -/
theorem provider_search_rendering_witness :
    (∃ e, exaSearch "test" 1 ⟨401, "invalid api key", []⟩ =
        Except.error e ∧
        ("status " ++ toString (401 : Nat)).data <:+: e.data ∧
        ("invalid api key").data <:+: e.data) ∧
      exaSearch "sam altman blog" 1
          ⟨200, "", [⟨"Sam Altman",
            "https://blog.samaltman.com/the-gentle-singularity",
            "The Gentle Singularity - Sam Altman"⟩]⟩ =
        Except.ok ("Results for: " ++ "sam altman blog" ++
          " (via Exa)\n\n" ++
          String.join ([(⟨"Sam Altman",
            "https://blog.samaltman.com/the-gentle-singularity",
            "The Gentle Singularity - Sam Altman"⟩ :
              SearchResultItem)].map
            (fun r => r.title ++ "\n" ++ r.url ++ "\n" ++
              r.text ++ "\n\n"))) :=
  ⟨(provider_search_rendering "test" 1 ⟨401, "invalid api key", []⟩).1
      (by decide),
   (provider_search_rendering "sam altman blog" 1
      ⟨200, "", [⟨"Sam Altman",
        "https://blog.samaltman.com/the-gentle-singularity",
        "The Gentle Singularity - Sam Altman"⟩]⟩).2 (by decide)⟩

/-- C6: the fetch tool validates its URL argument before any network
access: an unparseable argument yields an error result naming URL, a
scheme other than http or https yields an error result naming
http/https, an empty host yields an error result naming domain, and
only a fully valid URL reaches the fetch step; in every failing case
no fetch is attempted, witnessed by the error constructor. -/
theorem fetch_url_validation (urlArg : String) :
    (parseURL urlArg = none →
      ∃ r, webFetchExecute urlArg = Except.error r ∧ r.isError = true ∧
        ("URL").data <:+: r.forUser.data) ∧
      (∀ u, parseURL urlArg = some u → u.scheme ≠ "http" →
        u.scheme ≠ "https" →
        ∃ r, webFetchExecute urlArg = Except.error r ∧ r.isError = true ∧
          ("http/https").data <:+: r.forUser.data) ∧
      (∀ u, parseURL urlArg = some u →
        (u.scheme = "http" ∨ u.scheme = "https") → u.host = "" →
        ∃ r, webFetchExecute urlArg = Except.error r ∧ r.isError = true ∧
          ("domain").data <:+: r.forUser.data) ∧
      (∀ u, parseURL urlArg = some u →
        (u.scheme = "http" ∨ u.scheme = "https") → u.host ≠ "" →
        webFetchExecute urlArg = Except.ok u) := by
  refine ⟨?_, ?_, ?_, ?_⟩
  · intro hnone
    refine ⟨⟨"Error: invalid URL", "Error: invalid URL", true⟩,
      by simp [webFetchExecute, hnone], rfl, ?_⟩
    exact ⟨("Error: invalid ").data, [], by decide⟩
  · intro u hu h1 h2
    have hsch : (u.scheme != "http" && u.scheme != "https") = true := by
      simp [h1, h2]
    refine ⟨⟨"Error: only http/https URLs are supported",
      "Error: only http/https URLs are supported", true⟩, ?_, rfl, ?_⟩
    · simp [webFetchExecute, hu, hsch]
    · exact ⟨("Error: only ").data, (" URLs are supported").data, by decide⟩
  · intro u hu hsch hhost
    have hs : (u.scheme != "http" && u.scheme != "https") = false := by
      rcases hsch with h | h <;> simp [h]
    have hh : (u.host == "") = true := by simp [hhost]
    refine ⟨⟨"Error: URL is missing domain",
      "Error: URL is missing domain", true⟩, ?_, rfl, ?_⟩
    · simp [webFetchExecute, hu, hs, hh]
    · exact ⟨("Error: URL is missing ").data, [], by decide⟩
  · intro u hu hsch hhost
    have hs : (u.scheme != "http" && u.scheme != "https") = false := by
      rcases hsch with h | h <;> simp [h]
    have hh : (u.host == "") = false := by simp [hhost]
    simp [webFetchExecute, hu, hs, hh]

/-- C6 witness: the four concrete test arguments: a plain word fails
naming URL, an ftp URL fails naming http/https, a bare https scheme
fails naming domain, and a well-formed https URL passes validation
and proceeds to the fetch. -/
theorem fetch_url_validation_witness :
    (∃ r, webFetchExecute "not-a-valid-url" = Except.error r ∧
        r.isError = true ∧ ("URL").data <:+: r.forUser.data) ∧
      (∃ r, webFetchExecute "ftp://example.com/file.txt" =
          Except.error r ∧ r.isError = true ∧
          ("http/https").data <:+: r.forUser.data) ∧
      (∃ r, webFetchExecute "https://" = Except.error r ∧
        r.isError = true ∧ ("domain").data <:+: r.forUser.data) ∧
      webFetchExecute "https://example.com/x" =
        Except.ok ⟨"https", "example.com"⟩ :=
  ⟨(fetch_url_validation "not-a-valid-url").1 (by decide),
   (fetch_url_validation "ftp://example.com/file.txt").2.1
      ⟨"ftp", "example.com"⟩ (by decide) (by decide) (by decide),
   (fetch_url_validation "https://").2.2.1 ⟨"https", ""⟩ (by decide)
      (Or.inr rfl) rfl,
   (fetch_url_validation "https://example.com/x").2.2.2
      ⟨"https", "example.com"⟩ (by decide) (Or.inr rfl) (by decide)⟩

/-- C8: on a successful fetch the user-facing side carries exactly
the rendered (possibly truncated) content, while the model-facing
summary depends on the fetched body only through its byte count, and
a body longer than that summary can never occur inside it: the full
body is never fed back to the model. -/
theorem fetch_summary_excludes_body (extracted method : String)
    (limit : Nat) :
    ((webFetchSuccess extracted method limit).forUser =
        (truncateContent extracted limit).text ∧
      (webFetchSuccess extracted method limit).isError = false) ∧
      (∀ other : String, other.length = extracted.length →
        (webFetchSuccess other method limit).forLLM =
          (webFetchSuccess extracted method limit).forLLM) ∧
      ((webFetchSuccess extracted method limit).forLLM.length <
          extracted.length →
        ¬ extracted.data <:+:
          (webFetchSuccess extracted method limit).forLLM.data) := by
  refine ⟨⟨rfl, rfl⟩, ?_, ?_⟩
  · intro other hlen
    simp [webFetchSuccess, hlen]
  · intro hshort hinf
    have hle := hinf.length_le
    have : (webFetchSuccess extracted method limit).forLLM.length =
        (webFetchSuccess extracted method limit).forLLM.data.length := rfl
    have hlen : extracted.length = extracted.data.length := rfl
    omega

/-- C8 witness: for a concrete forty-character body the model-facing
summary is shorter than the body and therefore does not contain it,
and the user-facing side is exactly the truncated rendering. -/
theorem fetch_summary_excludes_body_witness :
    ((webFetchSuccess
        "0123456789012345678901234567890123456789" "html" 1000).forUser =
      (truncateContent
        "0123456789012345678901234567890123456789" 1000).text ∧
      (webFetchSuccess
        "0123456789012345678901234567890123456789" "html" 1000).isError =
        false) ∧
      ¬ ("0123456789012345678901234567890123456789").data <:+:
        (webFetchSuccess
          "0123456789012345678901234567890123456789" "html" 1000).forLLM.data :=
  ⟨(fetch_summary_excludes_body
      "0123456789012345678901234567890123456789" "html" 1000).1,
   (fetch_summary_excludes_body
      "0123456789012345678901234567890123456789" "html" 1000).2.2
      (by decide)⟩

/-- C9: FormatMessage is a deterministic function of the event value
that renders the same template for add and remove events, differing
only in the action text (Connected against Disconnected, with change
rendered like add), and the rendered message contains the kind, the
vendor and the product of the event. -/
theorem format_message_template (e : DeviceEvent) :
    (∃ post,
      (e.setAction ActionAdd).FormatMessage =
          "🔌 Device " ++ "Connected" ++ post ∧
        (e.setAction ActionRemove).FormatMessage =
          "🔌 Device " ++ "Disconnected" ++ post ∧
        (e.setAction ActionChange).FormatMessage =
          "🔌 Device " ++ "Connected" ++ post) ∧
      e.kind.data <:+: e.FormatMessage.data ∧
      e.vendor.data <:+: e.FormatMessage.data ∧
      e.product.data <:+: e.FormatMessage.data := by
  have hadd : ((ActionAdd == ActionRemove) : Bool) = false := by decide
  have hchg : ((ActionChange == ActionRemove) : Bool) = false := by decide
  have hrem : ((ActionRemove == ActionRemove) : Bool) = true := by decide
  refine ⟨⟨"\n\n" ++ "Type: " ++ e.kind ++ "\n" ++ "Device: " ++
      e.vendor ++ " " ++ e.product ++ "\n" ++
      (if e.capabilities != "" then
        "Capabilities: " ++ e.capabilities ++ "\n" else "") ++
      (if e.serial != "" then "Serial: " ++ e.serial ++ "\n" else ""),
      ?_, ?_, ?_⟩, ?_, ?_, ?_⟩
  · rw [formatMessage_unfold]
    apply string_data_ext
    simp [DeviceEvent.setAction, hadd, string_data_append,
      List.append_assoc]
  · rw [formatMessage_unfold]
    apply string_data_ext
    simp [DeviceEvent.setAction, hrem, string_data_append,
      List.append_assoc]
  · rw [formatMessage_unfold]
    apply string_data_ext
    simp [DeviceEvent.setAction, hchg, string_data_append,
      List.append_assoc]
  · refine ⟨("🔌 Device " ++
      (if e.action == ActionRemove then "Disconnected" else "Connected") ++
      "\n\n" ++ "Type: ").data,
      ("\n" ++ "Device: " ++ e.vendor ++ " " ++ e.product ++ "\n" ++
        (if e.capabilities != "" then
          "Capabilities: " ++ e.capabilities ++ "\n" else "") ++
        (if e.serial != "" then
          "Serial: " ++ e.serial ++ "\n" else "")).data, ?_⟩
    rw [formatMessage_unfold]
    simp [string_data_append, List.append_assoc]
  · refine ⟨("🔌 Device " ++
      (if e.action == ActionRemove then "Disconnected" else "Connected") ++
      "\n\n" ++ "Type: " ++ e.kind ++ "\n" ++ "Device: ").data,
      (" " ++ e.product ++ "\n" ++
        (if e.capabilities != "" then
          "Capabilities: " ++ e.capabilities ++ "\n" else "") ++
        (if e.serial != "" then
          "Serial: " ++ e.serial ++ "\n" else "")).data, ?_⟩
    rw [formatMessage_unfold]
    simp [string_data_append, List.append_assoc]
  · refine ⟨("🔌 Device " ++
      (if e.action == ActionRemove then "Disconnected" else "Connected") ++
      "\n\n" ++ "Type: " ++ e.kind ++ "\n" ++ "Device: " ++
      e.vendor ++ " ").data,
      ("\n" ++
        (if e.capabilities != "" then
          "Capabilities: " ++ e.capabilities ++ "\n" else "") ++
        (if e.serial != "" then
          "Serial: " ++ e.serial ++ "\n" else "")).data, ?_⟩
    rw [formatMessage_unfold]
    simp [string_data_append, List.append_assoc]

/-- C10: every event whose action is not remove, the change action
included, renders the Connected action text, and only the remove
action renders Disconnected; moreover the Capabilities line is
present exactly when the capabilities field is non-empty and the
Serial line exactly when the serial field is non-empty, as the full
structural rendering equation shows. -/
theorem format_message_action_cases (e : DeviceEvent) :
    (e.action ≠ "remove" →
      ∃ rest, e.FormatMessage = "🔌 Device Connected\n\n" ++ rest) ∧
      (e.action = "remove" →
        ∃ rest, e.FormatMessage = "🔌 Device Disconnected\n\n" ++ rest) ∧
      e.FormatMessage =
        "🔌 Device " ++
          (if e.action = "remove" then "Disconnected" else "Connected") ++
          "\n\n" ++ "Type: " ++ e.kind ++ "\n" ++ "Device: " ++
          e.vendor ++ " " ++ e.product ++ "\n" ++
          (if e.capabilities = "" then ""
           else "Capabilities: " ++ e.capabilities ++ "\n") ++
          (if e.serial = "" then ""
           else "Serial: " ++ e.serial ++ "\n") := by
  have h3 : e.FormatMessage =
      "🔌 Device " ++
        (if e.action = "remove" then "Disconnected" else "Connected") ++
        "\n\n" ++ "Type: " ++ e.kind ++ "\n" ++ "Device: " ++
        e.vendor ++ " " ++ e.product ++ "\n" ++
        (if e.capabilities = "" then ""
         else "Capabilities: " ++ e.capabilities ++ "\n") ++
        (if e.serial = "" then ""
         else "Serial: " ++ e.serial ++ "\n") := by
    rw [formatMessage_unfold, ite_beq_string, ite_bne_string,
      ite_bne_string]
    rfl
  refine ⟨?_, ?_, h3⟩
  · intro ha
    refine ⟨"Type: " ++ e.kind ++ "\n" ++ "Device: " ++ e.vendor ++
      " " ++ e.product ++ "\n" ++
      (if e.capabilities = "" then ""
       else "Capabilities: " ++ e.capabilities ++ "\n") ++
      (if e.serial = "" then ""
       else "Serial: " ++ e.serial ++ "\n"), ?_⟩
    rw [h3, if_neg ha]
    apply string_data_ext
    simp only [string_data_append, List.append_assoc]
    rfl
  · intro ha
    refine ⟨"Type: " ++ e.kind ++ "\n" ++ "Device: " ++ e.vendor ++
      " " ++ e.product ++ "\n" ++
      (if e.capabilities = "" then ""
       else "Capabilities: " ++ e.capabilities ++ "\n") ++
      (if e.serial = "" then ""
       else "Serial: " ++ e.serial ++ "\n"), ?_⟩
    rw [h3, if_pos ha]
    apply string_data_ext
    simp only [string_data_append, List.append_assoc]
    rfl

/-- C10 witness: a change event for a USB device renders the
Connected text, and the same device under a remove action renders the
Disconnected text. -/
theorem format_message_action_cases_witness :
    (∃ rest,
      (⟨"change", "usb", "1-2", "Logitech", "Mouse", "", "", []⟩ :
        DeviceEvent).FormatMessage = "🔌 Device Connected\n\n" ++ rest) ∧
      (∃ rest,
        (⟨"remove", "usb", "1-2", "Logitech", "Mouse", "", "", []⟩ :
          DeviceEvent).FormatMessage =
            "🔌 Device Disconnected\n\n" ++ rest) :=
  ⟨(format_message_action_cases
      ⟨"change", "usb", "1-2", "Logitech", "Mouse", "", "", []⟩).1
      (by decide),
   (format_message_action_cases
      ⟨"remove", "usb", "1-2", "Logitech", "Mouse", "", "", []⟩).2.1 rfl⟩
